import Mathlib

/-!
# Void renderer: editor light panel, skydome stage and material buffer

A shallow embedding of the parts of the Void renderer that the
specification talks about:

* `Editor::LightsWindow` and `Editor::DetailsWindow`
  (`Source/Framework/Editor.cpp`),
* `SkydomeStage::RecordStage` (`Source/Graphics/RenderStages/SkydomeStage.cpp`),
* the `Material` constant-buffer struct (`Headers/Graphics/Mesh.h`).

Conventions.  A C `int` is an `Int`; a `float` is carried as its 32-bit
IEEE-754 pattern (a `Nat`), since the code only moves floats around and never
computes with them in the modelled functions.  An ImGui value widget is an
input of the frame: `none` when the widget reports no edit (it returns
`false` and leaves the value alone), `some v` when it reports an edit (it
returns `true` after storing `v`).  An access outside an array is undefined
behaviour in the source and makes the model return `none`.
-/

namespace Void

/-! ## Lights -/

/-- 32-bit pattern of a C `float`. -/
abbrev F32 := Nat

/-- The type `glm::vec3`: three floats. -/
structure Vec3 where
  x : F32
  y : F32
  z : F32
deriving DecidableEq, Repr

/-- A 4x4 float matrix (`glm::mat4`), its sixteen floats in memory order. -/
abbrev Mat4 := List F32

/-- Modelled from the spec: `Graphics/Camera.h` is missing from the sources;
the three getters `SkydomeStage::RecordStage` calls. -/
structure Camera where
  forwardVector : Vec3
  upwardVector : Vec3
  projectionMatrix : Mat4
deriving DecidableEq, Repr

/-- Modelled from the spec: `Graphics/Lights.h` is missing from the sources; a
point light has the three fields `Editor::LightsWindow` edits. -/
structure PointLight where
  Position : Vec3
  Color : Vec3
  Intensity : F32
deriving DecidableEq, Repr

/-- Modelled from the spec: `LightData` of the missing `Graphics/Lights.h`, a
fixed-capacity array of point lights plus the active count (a C `int`). -/
structure LightData where
  pointLights : List PointLight
  activePointLights : Int
deriving DecidableEq, Repr

/-- Modelled from the spec: `Framework/Scene.h` is missing from the sources;
the members the editor and the skydome stage use. -/
structure Scene where
  lights : LightData
  lightsEdited : Bool
  camera : Camera
deriving DecidableEq, Repr

/-- What the three widgets of one light report in a frame. -/
structure LightEdit where
  Position : Option Vec3
  Color : Option Vec3
  Intensity : Option F32
deriving DecidableEq, Repr

/-- No widget of the light reports an edit. -/
def LightEdit.untouched : LightEdit := ⟨none, none, none⟩

/-- User input of one frame of the "Lights" window: whether the "Add Light"
button was pressed, and what the widgets pushed under id `i` report. -/
structure LightsInput where
  addLight : Bool
  edits : Nat → LightEdit

/-- What the window produced besides the scene: the messages logged and the
ids pushed by the per-light loop (one per light shown, in order). -/
structure LightsOutput where
  log : List String
  ids : List Nat
deriving DecidableEq, Repr

/-- The message of the `LOG` call in the else branch of the button. -/
def limitMessage : String := "You are already at the limit of lights"

/-- Lines 84-95 of `Editor.cpp`: the body of `if(ImGui::Button("Add Light"))`.
`maxLights` is `MAX_AMOUNT_OF_LIGHTS`, whose definition is not in the
sources. -/
def addLight (maxLights : Nat) (s : Scene) : Scene × List String :=
  if s.lights.activePointLights < (maxLights : Int) then
    ({ s with lights := { s.lights with activePointLights := s.lights.activePointLights + 1 },
              lightsEdited := true }, [])
  else
    (s, [limitMessage])

/-- One widget line `if(Widget(&field)) { scene->lightsEdited = true; }`:
the new field value and the new dirty flag. -/
def applyWidget {α : Type} (edit : Option α) (old : α) (dirty : Bool) : α × Bool :=
  match edit with
  | none => (old, dirty)
  | some v => (v, true)

/-- Body of the per-light loop for index `i` (lines 99-110): the light is
`pointLights[i]`, edited in place through a reference. -/
def editLight (e : LightEdit) (i : Nat) (s : Scene) : Option Scene :=
  match s.lights.pointLights[i]? with
  | none => none
  | some pl =>
    let p := applyWidget e.Position pl.Position s.lightsEdited
    let c := applyWidget e.Color pl.Color p.2
    let n := applyWidget e.Intensity pl.Intensity c.2
    some { s with lights := { s.lights with
                              pointLights := s.lights.pointLights.set i ⟨p.1, c.1, n.1⟩ },
                  lightsEdited := n.2 }

/-- The loop `for(int i = 0; i < activePointLights; i++)` from index `i` with
`remaining` iterations to go; `ids` collects the arguments of `PushID`. -/
def lightsLoop (edits : Nat → LightEdit) :
    Nat → Nat → Scene → List Nat → Option (Scene × List Nat)
  | 0, _, s, ids => some (s, ids)
  | remaining + 1, i, s, ids =>
    match editLight (edits i) i s with
    | none => none
    | some s1 => lightsLoop edits remaining (i + 1) s1 (ids ++ [i])

/-- Lines 84-95 with the test of the button: the scene after the button
block of a frame, and what it logged. -/
def afterButton (maxLights : Nat) (ui : LightsInput) (s : Scene) : Scene × List String :=
  if ui.addLight then addLight maxLights s else (s, [])

/-- The function `Editor::LightsWindow` (lines 80-114): the button block, then
the loop over the active lights. -/
def LightsWindow (maxLights : Nat) (ui : LightsInput) (s : Scene) :
    Option (Scene × LightsOutput) :=
  let added := afterButton maxLights ui s
  match lightsLoop ui.edits added.1.lights.activePointLights.toNat 0 added.1 [] with
  | none => none
  | some r => some (r.1, { log := added.2, ids := r.2 })

/-- The array has its declared capacity and the count is within it. -/
def Scene.WellFormed (maxLights : Nat) (s : Scene) : Prop :=
  s.lights.pointLights.length = maxLights ∧
  0 ≤ s.lights.activePointLights ∧ s.lights.activePointLights ≤ (maxLights : Int)

instance (maxLights : Nat) (s : Scene) : Decidable (s.WellFormed maxLights) := by
  unfold Scene.WellFormed; exact inferInstance

/-- A frame in which the button is pressed and no widget is touched. -/
def pressAdd : LightsInput := ⟨true, fun _ => LightEdit.untouched⟩

/-- A frame without any input. -/
def idle : LightsInput := ⟨false, fun _ => LightEdit.untouched⟩

/-- Runs `n` frames of `LightsWindow`, each with the "Add Light" button
pressed and no widget touched; the outputs of the frames are dropped. -/
def addLights (maxLights : Nat) : Nat → Scene → Option Scene
  | 0, s => some s
  | n + 1, s =>
    match LightsWindow maxLights pressAdd s with
    | none => none
    | some r => addLights maxLights n r.1

/-! ## The `Material` constant-buffer struct -/

/-- The members of `struct Material`, in declaration order. -/
inductive MaterialField where
  | hasAlbedo | hasNormal | hasMetallicRoughness | hasOcclusion | hasEmissive
  | oChannel | rChannel | mChannel
  | useTextures | Color | Metallic | Roughness
  | stub
deriving DecidableEq, Repr

/-- The C++ type of a member. -/
inductive CType where
  | int | float | vec3 | doubleArray (count : Nat)
deriving DecidableEq, Repr

/-- Size in bytes: 4-byte `int` and `float`, 12-byte `glm::vec3`, 8-byte
`double`. -/
def CType.size : CType → Nat
  | .int => 4
  | .float => 4
  | .vec3 => 12
  | .doubleArray n => 8 * n

/-- Alignment in bytes: a `glm::vec3` is three floats, a `double` is 8-byte
aligned. -/
def CType.align : CType → Nat
  | .int => 4
  | .float => 4
  | .vec3 => 4
  | .doubleArray _ => 8

/-- Declared type of each member of `struct Material`. -/
def MaterialField.type : MaterialField → CType
  | .hasAlbedo | .hasNormal | .hasMetallicRoughness | .hasOcclusion | .hasEmissive => .int
  | .oChannel | .rChannel | .mChannel => .int
  | .useTextures => .int
  | .Color => .vec3
  | .Metallic | .Roughness => .float
  | .stub => .doubleArray 25

/-- The members of `struct Material` as the header lists them. -/
def materialFields : List MaterialField :=
  [.hasAlbedo, .hasNormal, .hasMetallicRoughness, .hasOcclusion, .hasEmissive,
   .oChannel, .rChannel, .mChannel, .useTextures, .Color, .Metallic, .Roughness, .stub]

/-- Rounds `off` up to the next multiple of `align`. -/
def alignUp (off align : Nat) : Nat := (off + align - 1) / align * align

/-- Standard struct layout: every member goes to the first offset at or after
the end of the previous one that satisfies its alignment. -/
def layoutFrom : Nat → List MaterialField → List (MaterialField × Nat)
  | _, [] => []
  | off, f :: fs =>
    (f, alignUp off f.type.align) :: layoutFrom (alignUp off f.type.align + f.type.size) fs

/-- Offsets of the members of `struct Material`. -/
def materialLayout : List (MaterialField × Nat) := layoutFrom 0 materialFields

/-- Byte offset of a member (`offsetof(Material, f)`). -/
def offsetOf (f : MaterialField) : Nat :=
  match materialLayout.lookup f with
  | some o => o
  | none => 0

/-- First byte after a member. -/
def endOf (f : MaterialField) : Nat := offsetOf f + f.type.size

/-- Alignment of the struct: the largest alignment of a member. -/
def materialAlign : Nat := (materialFields.map fun f => f.type.align).foldl max 1

/-- The value `sizeof(Material)`: the end of the last member rounded up to the
alignment of the struct. -/
def sizeofMaterial : Nat := alignUp (endOf .stub) materialAlign

/-- Minimum alignment of a constant buffer view on the GPU
(`D3D12_CONSTANT_BUFFER_DATA_PLACEMENT_ALIGNMENT`). -/
def constantBufferAlignment : Nat := 256

/-- The struct `Material` of `Headers/Graphics/Mesh.h`; `stub` holds the 64-bit
patterns of its doubles. -/
structure Material where
  hasAlbedo : Int
  hasNormal : Int
  hasMetallicRoughness : Int
  hasOcclusion : Int
  hasEmissive : Int
  oChannel : Int
  rChannel : Int
  mChannel : Int
  useTextures : Int
  Color : Vec3
  Metallic : F32
  Roughness : F32
  stub : List Nat
deriving DecidableEq, Repr

/-- The value fits a 32-bit `int`. -/
def isInt32 (v : Int) : Prop := -2147483648 ≤ v ∧ v < 2147483648

instance (v : Int) : Decidable (isInt32 v) := by unfold isInt32; exact inferInstance

/-- The three floats are 32-bit patterns. -/
def Vec3.InRange (v : Vec3) : Prop := v.x < 4294967296 ∧ v.y < 4294967296 ∧ v.z < 4294967296

instance (v : Vec3) : Decidable v.InRange := by unfold Vec3.InRange; exact inferInstance

/-- Every member holds a value of its C++ type. -/
def Material.InRange (m : Material) : Prop :=
  isInt32 m.hasAlbedo ∧ isInt32 m.hasNormal ∧ isInt32 m.hasMetallicRoughness ∧
  isInt32 m.hasOcclusion ∧ isInt32 m.hasEmissive ∧
  isInt32 m.oChannel ∧ isInt32 m.rChannel ∧ isInt32 m.mChannel ∧ isInt32 m.useTextures ∧
  m.Color.InRange ∧ m.Metallic < 4294967296 ∧ m.Roughness < 4294967296 ∧
  m.stub.length = 25 ∧ ∀ d ∈ m.stub, d < 18446744073709551616

instance (m : Material) : Decidable m.InRange := by unfold Material.InRange; exact inferInstance

/-- The `width` little-endian bytes of `n`. -/
def leBytes : Nat → Nat → List Nat
  | 0, _ => []
  | width + 1, n => n % 256 :: leBytes width (n / 256)

/-- The number whose little-endian bytes are given. -/
def ofLeBytes : List Nat → Nat
  | [] => 0
  | b :: bs => b + 256 * ofLeBytes bs

/-- Memory image of an `int` (two's complement, little endian). -/
def intBytes (v : Int) : List Nat := leBytes 4 (v % 4294967296).toNat

/-- The `int` stored in four bytes. -/
def intOfBytes (bs : List Nat) : Int :=
  if ofLeBytes bs < 2147483648 then (ofLeBytes bs : Int) else (ofLeBytes bs : Int) - 4294967296

/-- Memory image of a `glm::vec3`. -/
def vec3Bytes (v : Vec3) : List Nat := leBytes 4 v.x ++ leBytes 4 v.y ++ leBytes 4 v.z

/-- The bytes `buf[off .. off + len)`. -/
def readAt (buf : List Nat) (off len : Nat) : List Nat := (buf.drop off).take len

/-- The `glm::vec3` stored at the start of `bs`. -/
def vec3OfBytes (bs : List Nat) : Vec3 :=
  ⟨ofLeBytes (readAt bs 0 4), ofLeBytes (readAt bs 4 4), ofLeBytes (readAt bs 8 4)⟩

/-- Memory image of an array of doubles. -/
def doublesBytes : List Nat → List Nat
  | [] => []
  | d :: ds => leBytes 8 d ++ doublesBytes ds

/-- The `count` doubles stored at the start of `bs`. -/
def doublesOfBytes : Nat → List Nat → List Nat
  | 0, _ => []
  | count + 1, bs => ofLeBytes (bs.take 8) :: doublesOfBytes count (bs.drop 8)

/-- Memory image of one member of a material. -/
def Material.fieldBytes (m : Material) : MaterialField → List Nat
  | .hasAlbedo => intBytes m.hasAlbedo
  | .hasNormal => intBytes m.hasNormal
  | .hasMetallicRoughness => intBytes m.hasMetallicRoughness
  | .hasOcclusion => intBytes m.hasOcclusion
  | .hasEmissive => intBytes m.hasEmissive
  | .oChannel => intBytes m.oChannel
  | .rChannel => intBytes m.rChannel
  | .mChannel => intBytes m.mChannel
  | .useTextures => intBytes m.useTextures
  | .Color => vec3Bytes m.Color
  | .Metallic => leBytes 4 m.Metallic
  | .Roughness => leBytes 4 m.Roughness
  | .stub => doublesBytes m.stub

/-- Memory image of the members `fs` placed after offset `off`: padding (zero
here) up to the aligned offset of a member, then the member. -/
def Material.imageFrom (m : Material) : Nat → List MaterialField → List Nat
  | _, [] => []
  | off, f :: fs =>
    List.replicate (alignUp off f.type.align - off) 0 ++ m.fieldBytes f ++
      m.imageFrom (alignUp off f.type.align + f.type.size) fs

/-- The bytes of a `Material` object in memory, member by member at the
offsets of the struct layout. -/
def Material.toBytes (m : Material) : List Nat := m.imageFrom 0 materialFields

/-- Reads an `int` member at its offset. -/
def readInt (buf : List Nat) (f : MaterialField) : Int := intOfBytes (readAt buf (offsetOf f) 4)

/-- Reads a `float` member at its offset. -/
def readFloat (buf : List Nat) (f : MaterialField) : F32 := ofLeBytes (readAt buf (offsetOf f) 4)

/-- Reads a material back from a constant buffer, every member at its fixed
offset. -/
def Material.ofBytes (buf : List Nat) : Material :=
  { hasAlbedo := readInt buf .hasAlbedo
    hasNormal := readInt buf .hasNormal
    hasMetallicRoughness := readInt buf .hasMetallicRoughness
    hasOcclusion := readInt buf .hasOcclusion
    hasEmissive := readInt buf .hasEmissive
    oChannel := readInt buf .oChannel
    rChannel := readInt buf .rChannel
    mChannel := readInt buf .mChannel
    useTextures := readInt buf .useTextures
    Color := vec3OfBytes (readAt buf (offsetOf .Color) 12)
    Metallic := readFloat buf .Metallic
    Roughness := readFloat buf .Roughness
    stub := doublesOfBytes 25 (readAt buf (offsetOf .stub) 200) }

/-- The members of `class Mesh` that the editor and the skydome stage use:
the material, the contents of `materialBuffer`, the index count, the two
buffer views (as handles) and the `hasTextures` flag. -/
structure Mesh where
  Material : Void.Material
  materialBuffer : List Nat
  indicesCount : Nat
  vertexBufferView : Nat
  indexBufferView : Nat
  hasTextures : Bool
deriving DecidableEq, Repr

/-- Modelled from the spec: the body of `Mesh::UpdateMaterialData` is missing
from the sources (only its declaration is in `Mesh.h`); it re-serializes the
material into the mesh's constant buffer, in the fixed layout of the struct. -/
def Mesh.UpdateMaterialData (mesh : Mesh) : Mesh :=
  { mesh with materialBuffer := mesh.Material.toBytes }

/-- The material of the scenario: textures off, colour (1, 0, 0), metallic
0.5 (floats as IEEE-754 patterns); the other members as the header
initialises them, the flags and the padding zero. -/
def scenarioMaterial : Material :=
  { hasAlbedo := 0, hasNormal := 0, hasMetallicRoughness := 0, hasOcclusion := 0,
    hasEmissive := 0, oChannel := 0, rChannel := 1, mChannel := 2,
    useTextures := 0, Color := ⟨0x3F800000, 0, 0⟩, Metallic := 0x3F000000, Roughness := 0,
    stub := List.replicate 25 0 }

/-! ## `Editor::DetailsWindow` -/

/-- The member `Transform` of a model: position, rotation, scale. -/
structure Transform where
  Position : Vec3
  Rotation : Vec3
  Scale : Vec3
deriving DecidableEq, Repr

/-- Modelled from the spec: `Graphics/Model.h` is missing from the sources (the
`Headers/Model.h` at hand only shows the `meshes` vector); a model has a name,
a transform and its meshes, `GetMesh(i)` is `meshes[i]` and `GetMeshes()` is
the vector.  The meshes are distinct objects. -/
structure Model where
  Name : String
  Transform : Void.Transform
  meshes : List Mesh
deriving DecidableEq, Repr

/-- User input of one frame of the "Details" window.  `useTextures` tells
whether the checkbox was clicked (ImGui then flips the boolean it is given);
the other members are what the value widgets report when they are shown. -/
structure DetailsInput where
  Position : Option Vec3
  Rotation : Option Vec3
  Scale : Option Vec3
  useTextures : Bool
  Color : Option Vec3
  Metallic : Option F32
  Roughness : Option F32
  oChannel : Option Int
  rChannel : Option Int
  mChannel : Option Int
deriving DecidableEq, Repr

/-- The value widget `ImGui::DragFloat3` on a transform member, whose result
the code ignores. -/
def dragValue {α : Type} (edit : Option α) (old : α) : α :=
  match edit with
  | none => old
  | some v => v

/-- Lines 164-166: the three transform widgets. -/
def editTransform (ui : DetailsInput) (t : Transform) : Transform :=
  { Position := dragValue ui.Position t.Position
    Rotation := dragValue ui.Rotation t.Rotation
    Scale := dragValue ui.Scale t.Scale }

/-- The local `bool useTextures` after the checkbox (lines 172-173). -/
def shownUseTextures (ui : DetailsInput) (material : Material) : Bool :=
  if ui.useTextures then !(decide (material.useTextures ≠ 0)) else decide (material.useTextures ≠ 0)

/-- Lines 170-188: the material widgets, applied to the material of mesh 0;
returns the material and `materialUpdated`. -/
def editMaterial (ui : DetailsInput) (material : Material) : Material × Bool :=
  let useTextures := shownUseTextures ui material
  let m1 : Material × Bool :=
    if ui.useTextures then
      ({ material with useTextures := if useTextures then 1 else 0 }, true)
    else (material, false)
  let m2 : Material × Bool :=
    if !useTextures then
      let c := applyWidget ui.Color m1.1.Color m1.2
      let me := applyWidget ui.Metallic m1.1.Metallic c.2
      let ro := applyWidget ui.Roughness m1.1.Roughness me.2
      ({ m1.1 with Color := c.1, Metallic := me.1, Roughness := ro.1 }, ro.2)
    else m1
  let o := applyWidget ui.oChannel m2.1.oChannel m2.2
  let r := applyWidget ui.rChannel m2.1.rChannel o.2
  let mc := applyWidget ui.mChannel m2.1.mChannel r.2
  ({ m2.1 with oChannel := o.1, rChannel := r.1, mChannel := mc.1 }, mc.2)

/-- Lines 198-202 for one mesh: the three channel indices are copied from the
material of mesh 0 (`first`), then the material is uploaded. -/
def copyChannels (first mesh : Mesh) : Mesh :=
  Mesh.UpdateMaterialData
    { mesh with Material := { mesh.Material with
                              oChannel := first.Material.oChannel
                              rChannel := first.Material.rChannel
                              mChannel := first.Material.mChannel } }

/-- Body of the loop `for(Mesh* mesh : meshes)` (lines 198-202) for the mesh
at index `j`; `material` is a reference to the material of mesh 0 and is read
from the current state of the meshes. -/
def syncMesh (j : Nat) (ms : List Mesh) : Option (List Mesh) :=
  match ms[0]?, ms[j]? with
  | some first, some mesh => some (ms.set j (copyChannels first mesh))
  | _, _ => none

/-- The loop over the meshes from index `j`, `remaining` iterations to go;
`calls` collects the index of every mesh `UpdateMaterialData` is called on. -/
def syncMeshes : Nat → Nat → List Mesh → List Nat → Option (List Mesh × List Nat)
  | 0, _, ms, calls => some (ms, calls)
  | remaining + 1, j, ms, calls =>
    match syncMesh j ms with
    | none => none
    | some ms1 => syncMeshes remaining (j + 1) ms1 (calls ++ [j])

/-- The function `Editor::DetailsWindow` (lines 149-218) on the selected model
(`none` is the null pointer): the model afterwards, and the indices of the
meshes on which `UpdateMaterialData` was called, in call order.  The calls
that only draw (`Begin`, `SeparatorText`, the texture thumbnails) leave the
model alone and are not modelled. -/
def DetailsWindow (ui : DetailsInput) (hierachySelectedModel : Option Model) :
    Option (Option Model × List Nat) :=
  match hierachySelectedModel with
  | none => some (none, [])
  | some model =>
    match model.meshes[0]? with
    | none => none
    | some mesh0 =>
      let edited := editMaterial ui mesh0.Material
      let meshes1 := model.meshes.set 0 { mesh0 with Material := edited.1 }
      let synced :=
        if edited.2 then syncMeshes meshes1.length 0 meshes1 [] else some (meshes1, [])
      match synced with
      | none => none
      | some r =>
        some (some { model with Transform := editTransform ui model.Transform, meshes := r.1 }, r.2)

/-- Some material widget that is shown in this frame reports an edit: the
checkbox, the colour and the two sliders (shown when textures are off), or one
of the three channel sliders. -/
def DetailsInput.materialEdited (ui : DetailsInput) (material : Material) : Bool :=
  ui.useTextures ||
  (!(shownUseTextures ui material) &&
    (ui.Color.isSome || ui.Metallic.isSome || ui.Roughness.isSome)) ||
  ui.oChannel.isSome || ui.rChannel.isSome || ui.mChannel.isSome

/-! ## `SkydomeStage` -/

/-- The value of `D3D12_RESOURCE_STATE_PRESENT` in `d3d12.h`. -/
def D3D12_RESOURCE_STATE_PRESENT : Nat := 0

/-- The value of `D3D12_RESOURCE_STATE_RENDER_TARGET` in `d3d12.h`. -/
def D3D12_RESOURCE_STATE_RENDER_TARGET : Nat := 4

/-- The calls `RecordStage` makes that record into the frame's command list,
with their arguments; resources, views, handles and addresses are numbers. -/
inductive Cmd where
  | TransitionResource (resource before after : Nat)
  | BindAndClearRenderTarget (rtv dsv : Nat)
  | SetGraphicsRootSignature (address : Nat)
  | SetPipelineState (address : Nat)
  | SetGraphicsRootDescriptorTable (rootParameterIndex handle : Nat)
  | SetGraphicsRoot32BitConstants (rootParameterIndex num32BitValues : Nat)
      (data : List F32) (destOffset : Nat)
  | IASetVertexBuffers (startSlot numViews view : Nat)
  | IASetIndexBuffer (view : Nat)
  | DrawIndexedInstanced (indexCountPerInstance instanceCount startIndexLocation : Nat)
      (baseVertexLocation : Int) (startInstanceLocation : Nat)
deriving DecidableEq, Repr

/-- What the stage asks of its window in a frame. -/
structure Window where
  currentScreenBuffer : Nat
  currentScreenRTV : Nat
  depthDSV : Nat
deriving DecidableEq, Repr

/-- The two glm functions `RecordStage` computes the matrix with; floating
point, so they stay parameters. -/
structure Glm where
  lookAt : Vec3 → Vec3 → Vec3 → Mat4
  mul : Mat4 → Mat4 → Mat4

/-- The members of `SkydomeStage` and of its base `RenderStage` that
`RecordStage` uses; `scene` is a pointer, `none` when it was never set. -/
structure SkydomeStage where
  window : Window
  scene : Option Scene
  rootSignature : Nat
  pipeline : Nat
  skydomeMesh : Mesh
  skydomeMatrix : Mat4
deriving DecidableEq, Repr

/-- The message of the `assert` in `RecordStage`. -/
def sceneNotSet : String := "Scene has never been set"

/-- The function `SkydomeStage::RecordStage` (lines 28-67).  `ndebug` tells
whether the build defines `NDEBUG`: without it `assert(false && ...)` aborts
the process (`Except.error`), with it the assert is empty and the function
returns.  `skydomeData` is the GPU handle looked up in the descriptor heap.
The result is the stage and the command list with the recorded calls
appended. -/
def RecordStage (ndebug : Bool) (glm : Glm) (skydomeData : Nat) (stage : SkydomeStage)
    (commandList : List Cmd) : Except String (SkydomeStage × List Cmd) :=
  match stage.scene with
  | none => if ndebug then .ok (stage, commandList) else .error sceneNotSet
  | some scene =>
    let camera := scene.camera
    let view := glm.lookAt ⟨0, 0, 0⟩ camera.forwardVector camera.upwardVector
    let projection := camera.projectionMatrix
    let skydomeMatrix := glm.mul projection view
    .ok ({ stage with skydomeMatrix := skydomeMatrix },
      commandList ++
      [ Cmd.TransitionResource stage.window.currentScreenBuffer
          D3D12_RESOURCE_STATE_PRESENT D3D12_RESOURCE_STATE_RENDER_TARGET,
        Cmd.BindAndClearRenderTarget stage.window.currentScreenRTV stage.window.depthDSV,
        Cmd.SetGraphicsRootSignature stage.rootSignature,
        Cmd.SetPipelineState stage.pipeline,
        Cmd.SetGraphicsRootDescriptorTable 0 skydomeData,
        Cmd.SetGraphicsRoot32BitConstants 1 3
          [camera.forwardVector.x, camera.forwardVector.y, camera.forwardVector.z] 0,
        Cmd.SetGraphicsRoot32BitConstants 2 16 skydomeMatrix 0,
        Cmd.IASetVertexBuffers 0 1 stage.skydomeMesh.vertexBufferView,
        Cmd.IASetIndexBuffer stage.skydomeMesh.indexBufferView,
        Cmd.DrawIndexedInstanced stage.skydomeMesh.indicesCount 1 0 0 0 ])

/-- The resource-state transitions among the recorded calls, in order. -/
def transitions : List Cmd → List (Nat × Nat × Nat)
  | [] => []
  | Cmd.TransitionResource r a b :: cs => (r, a, b) :: transitions cs
  | _ :: cs => transitions cs

/-- State of `resource` after the recorded calls when it was in `state`
before them; `none` when a transition names a before-state the resource is not
in (an error for the graphics API). -/
def stateAfter (resource : Nat) : List Cmd → Nat → Option Nat
  | [], state => some state
  | Cmd.TransitionResource r a b :: cs, state =>
    if r = resource then
      if a = state then stateAfter resource cs b else none
    else stateAfter resource cs state
  | _ :: cs, state => stateAfter resource cs state

/-! ## `SkydomeStage::CreatePipeline` -/

/-- The type `D3D12_DESCRIPTOR_RANGE_TYPE` of `d3d12.h`. -/
inductive DescriptorRangeType where
  | SRV | UAV | CBV | SAMPLER
deriving DecidableEq, Repr

/-- The type `D3D12_SHADER_VISIBILITY` of `d3d12.h`. -/
inductive ShaderVisibility where
  | ALL | VERTEX | HULL | DOMAIN | GEOMETRY | PIXEL
deriving DecidableEq, Repr

/-- A descriptor range as `CD3DX12_DESCRIPTOR_RANGE1::Init(type, count,
baseRegister)` fills it. -/
structure DescriptorRange where
  rangeType : DescriptorRangeType
  numDescriptors : Nat
  baseShaderRegister : Nat
deriving DecidableEq, Repr

/-- A root parameter as `CD3DX12_ROOT_PARAMETER1` is initialised:
`InitAsDescriptorTable(numRanges, ranges, visibility)` or
`InitAsConstants(num32BitValues, shaderRegister, registerSpace, visibility)`. -/
inductive RootParameter where
  | descriptorTable (numDescriptorRanges : Nat) (ranges : List DescriptorRange)
      (visibility : ShaderVisibility)
  | constants (num32BitValues shaderRegister registerSpace : Nat)
      (visibility : ShaderVisibility)
deriving DecidableEq, Repr

/-- The value of `D3D12_ROOT_SIGNATURE_FLAG_ALLOW_INPUT_ASSEMBLER_INPUT_LAYOUT`
in `d3d12.h`. -/
def D3D12_ROOT_SIGNATURE_FLAG_ALLOW_INPUT_ASSEMBLER_INPUT_LAYOUT : Nat := 1

/-- The arguments of `new DXRootSignature(parameters, count, flags)`. -/
structure RootSignatureArgs where
  parameters : List RootParameter
  parameterCount : Nat
  flags : Nat
deriving DecidableEq, Repr

/-- The members of `DXPipelineDescription` that `CreatePipeline` sets. -/
structure DXPipelineDescription where
  VertexPath : String
  PixelPath : String
  RootSignature : RootSignatureArgs
deriving DecidableEq, Repr

/-- The array `skydomeRange` of `CreatePipeline` (lines 87-88). -/
def skydomeRange : List DescriptorRange := [⟨.SRV, 1, 0⟩]

/-- The array `skydomeRootParameters` of `CreatePipeline` (lines 90-93). -/
def skydomeRootParameters : List RootParameter :=
  [ RootParameter.descriptorTable 1 skydomeRange .PIXEL,
    RootParameter.constants 3 0 0 .VERTEX,
    RootParameter.constants 16 1 0 .VERTEX ]

/-- The function `SkydomeStage::CreatePipeline` (lines 85-104): the root
signature it declares (`_countof` is the length of the array) and the
pipeline description it builds with it. -/
def CreatePipeline : RootSignatureArgs × DXPipelineDescription :=
  let rootSignature : RootSignatureArgs :=
    { parameters := skydomeRootParameters
      parameterCount := skydomeRootParameters.length
      flags := D3D12_ROOT_SIGNATURE_FLAG_ALLOW_INPUT_ASSEMBLER_INPUT_LAYOUT }
  (rootSignature,
    { VertexPath := "Source/Shaders/skydome.vertex.hlsl"
      PixelPath := "Source/Shaders/skydome.pixel.hlsl"
      RootSignature := rootSignature })

/-- A root argument bound by a recorded call: a descriptor table at a root
parameter index, or `num32BitValues` constants written from `destOffset` on
at a root parameter index. -/
inductive RootArgument where
  | descriptorTable (rootParameterIndex : Nat)
  | constants (rootParameterIndex num32BitValues destOffset : Nat)
deriving DecidableEq, Repr

/-- The root arguments the recorded calls bind, in order. -/
def rootArguments : List Cmd → List RootArgument
  | [] => []
  | Cmd.SetGraphicsRootDescriptorTable i _ :: cs =>
    RootArgument.descriptorTable i :: rootArguments cs
  | Cmd.SetGraphicsRoot32BitConstants i n _ off :: cs =>
    RootArgument.constants i n off :: rootArguments cs
  | _ :: cs => rootArguments cs

/-- The root parameter index of a root argument. -/
def RootArgument.index : RootArgument → Nat
  | .descriptorTable i => i
  | .constants i _ _ => i

/-- A root argument fits the root signature: its index names a declared
parameter of the same kind, and constants stay within the declared number of
32-bit values. -/
def RootArgument.fits (signature : RootSignatureArgs) : RootArgument → Bool
  | .descriptorTable i =>
    match signature.parameters[i]? with
    | some (RootParameter.descriptorTable _ _ _) => decide (i < signature.parameterCount)
    | _ => false
  | .constants i n off =>
    match signature.parameters[i]? with
    | some (RootParameter.constants declared _ _ _) =>
      decide (i < signature.parameterCount) && decide (off + n ≤ declared)
    | _ => false

/-- A root argument matches its slot exactly: a table on a table, or as many
constants as declared, written from offset 0. -/
def RootArgument.matchesSlot (signature : RootSignatureArgs) : RootArgument → Bool
  | .descriptorTable i =>
    match signature.parameters[i]? with
    | some (RootParameter.descriptorTable _ _ _) => true
    | _ => false
  | .constants i n off =>
    match signature.parameters[i]? with
    | some (RootParameter.constants declared _ _ _) => decide (off = 0) && decide (n = declared)
    | _ => false

/-- A glm stand-in for evaluating the stage on concrete values: `lookAt`
yields its three arguments as floats, `mul` concatenates. -/
def sampleGlm : Glm :=
  { lookAt := fun e c u => [e.x, e.y, e.z, c.x, c.y, c.z, u.x, u.y, u.z]
    mul := fun a b => a ++ b }

/-- A scene with room for four lights, two of them active. -/
def sampleScene : Scene :=
  { lights := { pointLights := [⟨⟨1, 2, 3⟩, ⟨4, 5, 6⟩, 7⟩, ⟨⟨8, 9, 10⟩, ⟨11, 12, 13⟩, 14⟩,
                                ⟨⟨0, 0, 0⟩, ⟨0, 0, 0⟩, 0⟩, ⟨⟨0, 0, 0⟩, ⟨0, 0, 0⟩, 0⟩],
                activePointLights := 2 }
    lightsEdited := false
    camera := { forwardVector := ⟨0, 0, 1⟩, upwardVector := ⟨0, 1, 0⟩, projectionMatrix := [1] } }

/-- A mesh with the scenario material and an empty constant buffer. -/
def sampleMesh : Mesh :=
  { Material := scenarioMaterial, materialBuffer := [], indicesCount := 36,
    vertexBufferView := 100, indexBufferView := 101, hasTextures := false }

/-- A skydome stage whose scene was never set. -/
def sampleStage : SkydomeStage :=
  { window := ⟨10, 11, 12⟩, scene := none, rootSignature := 20, pipeline := 21,
    skydomeMesh := sampleMesh, skydomeMatrix := [] }

/-- A model with two meshes whose channel indices differ. -/
def sampleModel : Model :=
  { Name := "model"
    Transform := ⟨⟨0, 0, 0⟩, ⟨0, 0, 0⟩, ⟨1, 1, 1⟩⟩
    meshes := [sampleMesh,
      { sampleMesh with Material := { scenarioMaterial with oChannel := 1, rChannel := 0 } }] }

/-- A frame of the details window in which only the metallic slider moves. -/
def sampleDetailsInput : DetailsInput :=
  { Position := none, Rotation := none, Scale := none, useTextures := false,
    Color := none, Metallic := some 0x3F800000, Roughness := none,
    oChannel := none, rChannel := none, mChannel := none }

end Void

namespace Void

/-! ## Lemmas on the light panel -/

theorem set_eq_self_of_getElem? {α : Type} (l : List α) (i : Nat) (a : α)
    (h : l[i]? = some a) : l.set i a = l := by
  induction l generalizing i with
  | nil => simp
  | cons x xs ih =>
    cases i with
    | zero => simp at h; simp [h]
    | succ k => simp at h; simp [ih k h]

theorem editLight_untouched (i : Nat) (s : Scene) (h : i < s.lights.pointLights.length) :
    editLight LightEdit.untouched i s = some s := by
  unfold editLight
  have hget : s.lights.pointLights[i]? = some (s.lights.pointLights[i]) :=
    List.getElem?_eq_getElem h
  rw [hget]
  simp only [LightEdit.untouched, applyWidget]
  rw [set_eq_self_of_getElem? _ _ _ hget]

theorem editLight_spec (e : LightEdit) (i : Nat) (s : Scene)
    (h : i < s.lights.pointLights.length) :
    ∃ s1, editLight e i s = some s1 ∧
      s1.lights.activePointLights = s.lights.activePointLights ∧
      s1.lights.pointLights.length = s.lights.pointLights.length ∧
      s1.camera = s.camera ∧
      (s1 = s ∨ s1.lightsEdited = true) ∧
      (s.lightsEdited = true → s1.lightsEdited = true) := by
  by_cases he : e = LightEdit.untouched
  · subst he
    exact ⟨s, editLight_untouched i s h, rfl, rfl, rfl, Or.inl rfl, id⟩
  · have hget : s.lights.pointLights[i]? = some (s.lights.pointLights[i]) :=
      List.getElem?_eq_getElem h
    unfold editLight
    rw [hget]
    refine ⟨_, rfl, rfl, by simp, rfl, ?_, ?_⟩
    · right
      obtain ⟨p, c, n⟩ := e
      cases p <;> cases c <;> cases n <;> simp_all [applyWidget, LightEdit.untouched]
    · intro hs
      obtain ⟨p, c, n⟩ := e
      cases p <;> cases c <;> cases n <;> simp_all [applyWidget]

theorem lightsLoop_spec (edits : Nat → LightEdit) (k : Nat) :
    ∀ (i : Nat) (s : Scene) (ids : List Nat), i + k ≤ s.lights.pointLights.length →
    ∃ s1, lightsLoop edits k i s ids = some (s1, ids ++ List.range' i k) ∧
      s1.lights.activePointLights = s.lights.activePointLights ∧
      s1.lights.pointLights.length = s.lights.pointLights.length ∧
      s1.camera = s.camera ∧
      (s1 = s ∨ s1.lightsEdited = true) ∧
      (s.lightsEdited = true → s1.lightsEdited = true) := by
  induction k with
  | zero =>
    intro i s ids _
    exact ⟨s, by simp [lightsLoop], rfl, rfl, rfl, Or.inl rfl, id⟩
  | succ k ih =>
    intro i s ids h
    obtain ⟨s1, h1, ha1, hl1, hc1, hr1, hm1⟩ := editLight_spec (edits i) i s (by omega)
    obtain ⟨s2, h2, ha2, hl2, hc2, hr2, hm2⟩ := ih (i + 1) s1 (ids ++ [i]) (by omega)
    refine ⟨s2, ?_, by rw [ha2, ha1], by rw [hl2, hl1], by rw [hc2, hc1], ?_, fun hs => hm2 (hm1 hs)⟩
    · simp only [lightsLoop, h1, h2]
      simp [List.range'_succ]
    · rcases hr2 with h | h
      · rcases hr1 with h' | h'
        · left; rw [h, h']
        · right; rw [h]; exact h'
      · right; exact h

theorem lightsLoop_untouched (edits : Nat → LightEdit) (k : Nat) :
    ∀ (i : Nat) (s : Scene) (ids : List Nat), i + k ≤ s.lights.pointLights.length →
    (∀ j, i ≤ j → j < i + k → edits j = LightEdit.untouched) →
    lightsLoop edits k i s ids = some (s, ids ++ List.range' i k) := by
  induction k with
  | zero => intro i s ids _ _; simp [lightsLoop]
  | succ k ih =>
    intro i s ids h hu
    have h1 : editLight (edits i) i s = some s := by
      rw [hu i (Nat.le_refl i) (by omega)]
      exact editLight_untouched i s (by omega)
    simp only [lightsLoop, h1]
    rw [ih (i + 1) s (ids ++ [i]) (by omega) (fun j hj hj' => hu j (by omega) (by omega))]
    simp [List.range'_succ]

theorem addLight_spec (maxLights : Nat) (s : Scene) :
    (addLight maxLights s).1.lights.pointLights = s.lights.pointLights ∧
    (addLight maxLights s).1.camera = s.camera ∧
    (addLight maxLights s).1.lights.activePointLights =
      (if s.lights.activePointLights < (maxLights : Int) then s.lights.activePointLights + 1
       else s.lights.activePointLights) ∧
    ((addLight maxLights s).1 = s ∨ (addLight maxLights s).1.lightsEdited = true) := by
  unfold addLight
  split <;> simp

theorem afterButton_spec (maxLights : Nat) (ui : LightsInput) (s : Scene) :
    (afterButton maxLights ui s).1.lights.pointLights = s.lights.pointLights ∧
    (afterButton maxLights ui s).1.camera = s.camera ∧
    ((afterButton maxLights ui s).1 = s ∨ (afterButton maxLights ui s).1.lightsEdited = true) ∧
    (s.lights.activePointLights ≤ (maxLights : Int) →
      (afterButton maxLights ui s).1.lights.activePointLights ≤ (maxLights : Int)) ∧
    (0 ≤ s.lights.activePointLights →
      0 ≤ (afterButton maxLights ui s).1.lights.activePointLights) := by
  unfold afterButton
  cases ui.addLight with
  | false => simp
  | true =>
    obtain ⟨h1, h2, h3, h4⟩ := addLight_spec maxLights s
    refine ⟨by simpa using h1, by simpa using h2, by simpa using h4, ?_, ?_⟩
    · intro h; simp only [if_true]; rw [h3]; split <;> omega
    · intro h; simp only [if_true]; rw [h3]; split <;> omega

theorem LightsWindow_spec (maxLights : Nat) (ui : LightsInput) (s : Scene)
    (hlen : s.lights.pointLights.length = maxLights)
    (hle : s.lights.activePointLights ≤ (maxLights : Int)) :
    ∃ s1, LightsWindow maxLights ui s =
        some (s1, ⟨(afterButton maxLights ui s).2,
          List.range (afterButton maxLights ui s).1.lights.activePointLights.toNat⟩) ∧
      s1.lights.activePointLights = (afterButton maxLights ui s).1.lights.activePointLights ∧
      s1.lights.pointLights.length = maxLights ∧
      (s1 = (afterButton maxLights ui s).1 ∨ s1.lightsEdited = true) ∧
      ((afterButton maxLights ui s).1.lightsEdited = true → s1.lightsEdited = true) := by
  obtain ⟨hp, _, _, hb, _⟩ := afterButton_spec maxLights ui s
  have hb' := hb hle
  have hlen' : (afterButton maxLights ui s).1.lights.pointLights.length = maxLights := by
    rw [hp]; exact hlen
  obtain ⟨s1, h1, ha, hl, _, hr, hm⟩ := lightsLoop_spec ui.edits
    (afterButton maxLights ui s).1.lights.activePointLights.toNat 0
    (afterButton maxLights ui s).1 [] (by omega)
  refine ⟨s1, ?_, ha, by rw [hl]; exact hlen', hr, hm⟩
  unfold LightsWindow
  simp only [afterButton] at h1 ⊢
  rw [h1]
  simp [List.range_eq_range']

theorem LightsWindow_untouched (maxLights : Nat) (ui : LightsInput) (s : Scene)
    (hlen : s.lights.pointLights.length = maxLights)
    (hle : s.lights.activePointLights ≤ (maxLights : Int))
    (hu : ∀ j : Nat, (j : Int) < (afterButton maxLights ui s).1.lights.activePointLights →
      ui.edits j = LightEdit.untouched) :
    LightsWindow maxLights ui s =
      some ((afterButton maxLights ui s).1, ⟨(afterButton maxLights ui s).2,
        List.range (afterButton maxLights ui s).1.lights.activePointLights.toNat⟩) := by
  obtain ⟨hp, _, _, hb, _⟩ := afterButton_spec maxLights ui s
  have hb' := hb hle
  have hlen' : (afterButton maxLights ui s).1.lights.pointLights.length = maxLights := by
    rw [hp]; exact hlen
  have h1 := lightsLoop_untouched ui.edits
    (afterButton maxLights ui s).1.lights.activePointLights.toNat 0
    (afterButton maxLights ui s).1 [] (by omega) (fun j _ hj => hu j (by omega))
  unfold LightsWindow
  simp only [afterButton] at h1 ⊢
  rw [h1]
  simp [List.range_eq_range']

theorem afterButton_at_limit (maxLights : Nat) (ui : LightsInput) (s : Scene)
    (hfull : s.lights.activePointLights = (maxLights : Int)) :
    (afterButton maxLights ui s).1 = s := by
  unfold afterButton addLight
  cases ui.addLight <;> simp [hfull]

theorem afterButton_pressAdd (maxLights : Nat) (s : Scene) :
    (afterButton maxLights pressAdd s).1.lights.activePointLights =
      (if s.lights.activePointLights < (maxLights : Int) then s.lights.activePointLights + 1
       else s.lights.activePointLights) ∧
    (afterButton maxLights pressAdd s).2 =
      (if s.lights.activePointLights < (maxLights : Int) then [] else [limitMessage]) := by
  unfold afterButton pressAdd addLight
  simp only [if_true]
  split <;> simp

theorem addLights_spec (maxLights n : Nat) :
    ∀ s : Scene, s.lights.pointLights.length = maxLights →
      0 ≤ s.lights.activePointLights → s.lights.activePointLights ≤ (maxLights : Int) →
      ∃ s1, addLights maxLights n s = some s1 ∧
        s1.lights.activePointLights = min (s.lights.activePointLights + n) maxLights ∧
        s1.lights.pointLights = s.lights.pointLights ∧ s1.camera = s.camera := by
  induction n with
  | zero =>
    intro s _ h0 hle
    exact ⟨s, rfl, by simp; omega, rfl, rfl⟩
  | succ n ih =>
    intro s hlen h0 hle
    have hstep := LightsWindow_untouched maxLights pressAdd s hlen hle (fun _ _ => rfl)
    obtain ⟨hp, hc, _, hb, hn⟩ := afterButton_spec maxLights pressAdd s
    obtain ⟨ha, _⟩ := afterButton_pressAdd maxLights s
    obtain ⟨s1, h1, ha1, hp1, hc1⟩ := ih (afterButton maxLights pressAdd s).1
      (by rw [hp]; exact hlen) (hn h0) (hb hle)
    refine ⟨s1, ?_, ?_, by rw [hp1, hp], by rw [hc1, hc]⟩
    · simp only [addLights, hstep]
      exact h1
    · rw [ha1, ha]
      split <;> push_cast <;> omega

/-! ## The claims on the light panel -/

/-- C1: when `activePointLights` equals `MAX_AMOUNT_OF_LIGHTS`, the "Add
Light" block returns the scene as it was (count, every light and the
`lightsEdited` flag) and logs one message; a frame of `LightsWindow` with the
button pressed and no widget touched leaves the scene as it was; and for any
widget input, pressing the button changes the frame only by the logged
message. -/
theorem addLight_at_limit (maxLights : Nat) (ui : LightsInput) (s : Scene)
    (hlen : s.lights.pointLights.length = maxLights)
    (hfull : s.lights.activePointLights = (maxLights : Int))
    (hpress : ui.addLight = true) :
    addLight maxLights s = (s, [limitMessage]) ∧
    ((∀ j, j < maxLights → ui.edits j = LightEdit.untouched) →
      LightsWindow maxLights ui s = some (s, ⟨[limitMessage], List.range maxLights⟩)) ∧
    LightsWindow maxLights ui s =
      (LightsWindow maxLights ⟨false, ui.edits⟩ s).map
        (fun r => (r.1, { r.2 with log := [limitMessage] })) := by
  have hadd : addLight maxLights s = (s, [limitMessage]) := by
    unfold addLight; simp [hfull]
  refine ⟨hadd, ?_, ?_⟩
  · intro hu
    have h := LightsWindow_untouched maxLights ui s hlen (by omega) (by
      intro j hj
      rw [afterButton_at_limit maxLights ui s hfull, hfull] at hj
      exact hu j (by omega))
    rw [h]
    simp [afterButton, hpress, hadd, hfull]
  · unfold LightsWindow afterButton
    simp only [hpress, hadd, if_true, Bool.false_eq_true, if_false]
    cases h : lightsLoop ui.edits s.lights.activePointLights.toNat 0 s [] <;> simp

/-- Witness for C1: a scene with four lights out of four. -/
theorem addLight_at_limit_witness :
    addLight 4 { sampleScene with lights := { sampleScene.lights with activePointLights := 4 } } =
      ({ sampleScene with lights := { sampleScene.lights with activePointLights := 4 } },
        [limitMessage]) :=
  (addLight_at_limit 4 pressAdd
    { sampleScene with lights := { sampleScene.lights with activePointLights := 4 } }
    (by decide) (by decide) (by decide)).1

/-- C3: from a scene with no active light, `n` frames with "Add Light"
pressed end with `activePointLights = min n MAX_AMOUNT_OF_LIGHTS`, which is
`n` when `n <= MAX_AMOUNT_OF_LIGHTS`; the light array is untouched, the
lights the panel then lists are the slots `0 .. min n MAX - 1` in increasing
order, and a further press below the cap lists the new slot `n` after
them. -/
theorem addLights_from_empty (maxLights n : Nat) (s : Scene)
    (hlen : s.lights.pointLights.length = maxLights)
    (h0 : s.lights.activePointLights = 0) :
    ∃ s1, addLights maxLights n s = some s1 ∧
      s1.lights.activePointLights = ((min n maxLights : Nat) : Int) ∧
      (n ≤ maxLights → s1.lights.activePointLights = (n : Int)) ∧
      s1.lights.pointLights = s.lights.pointLights ∧
      LightsWindow maxLights idle s1 = some (s1, ⟨[], List.range (min n maxLights)⟩) ∧
      (n < maxLights →
        (LightsWindow maxLights pressAdd s1).map (fun r => (r.1.lights.activePointLights, r.2)) =
          some (((n + 1 : Nat) : Int), ⟨[], List.range n ++ [n]⟩)) := by
  obtain ⟨s1, h1, ha, hp, _⟩ := addLights_spec maxLights n s hlen (by omega) (by omega)
  have hcount : s1.lights.activePointLights = ((min n maxLights : Nat) : Int) := by
    rw [ha, h0]; push_cast; simp
  have hlen1 : s1.lights.pointLights.length = maxLights := by rw [hp]; exact hlen
  have hle1 : s1.lights.activePointLights ≤ (maxLights : Int) := by rw [hcount]; omega
  refine ⟨s1, h1, hcount, ?_, hp, ?_, ?_⟩
  · intro hn; rw [hcount]; congr 1; omega
  · have h := LightsWindow_untouched maxLights idle s1 hlen1 hle1 (fun _ _ => rfl)
    have htn : s1.lights.activePointLights.toNat = min n maxLights := by
      rw [hcount]; exact Int.toNat_ofNat _
    rw [h]
    simp only [afterButton, idle, Bool.false_eq_true, if_false, htn]
  · intro hn
    have h := LightsWindow_untouched maxLights pressAdd s1 hlen1 hle1 (fun _ _ => rfl)
    obtain ⟨hb1, hb2⟩ := afterButton_pressAdd maxLights s1
    have hlt : s1.lights.activePointLights < (maxLights : Int) := by rw [hcount]; omega
    rw [if_pos hlt] at hb1 hb2
    have hmin : min n maxLights = n := by omega
    have hb3 : (afterButton maxLights pressAdd s1).1.lights.activePointLights =
        ((n + 1 : Nat) : Int) := by
      rw [hb1, hcount, hmin]; push_cast; rfl
    have htn : (afterButton maxLights pressAdd s1).1.lights.activePointLights.toNat = n + 1 := by
      rw [hb3]; exact Int.toNat_ofNat _
    rw [h]
    simp only [Option.map_some', hb2, htn, List.range_succ]
    rw [hb3]

/-- Witness for C3: the scenario of the spec, three lights added to an empty
scene with room for four. -/
theorem addLights_from_empty_witness :
    ∃ s1, addLights 4 3
        { sampleScene with lights := { sampleScene.lights with activePointLights := 0 } } =
          some s1 ∧
      s1.lights.activePointLights = 3 ∧
      LightsWindow 4 idle s1 = some (s1, ⟨[], [0, 1, 2]⟩) := by
  obtain ⟨s1, h1, h2, _, _, h5, _⟩ := addLights_from_empty 4 3
    { sampleScene with lights := { sampleScene.lights with activePointLights := 0 } }
    (by decide) (by decide)
  exact ⟨s1, h1, h2, h5⟩

/-- C6: `0 <= activePointLights <= MAX_AMOUNT_OF_LIGHTS` is preserved by
`LightsWindow` for any input (button pressed or not, any widget edits): the
frame returns, the count is still in range, the array keeps its capacity,
and every index the per-light loop uses is below `MAX_AMOUNT_OF_LIGHTS`. -/
theorem lightsWindow_keeps_count_in_range (maxLights : Nat) (ui : LightsInput) (s : Scene)
    (h : s.WellFormed maxLights) :
    ∃ s1 out, LightsWindow maxLights ui s = some (s1, out) ∧
      s1.WellFormed maxLights ∧
      out.ids = List.range s1.lights.activePointLights.toNat ∧
      ∀ i ∈ out.ids, i < maxLights := by
  obtain ⟨hlen, h0, hle⟩ := h
  obtain ⟨s1, h1, ha, hl, _, _⟩ := LightsWindow_spec maxLights ui s hlen hle
  obtain ⟨_, _, _, hb, hn⟩ := afterButton_spec maxLights ui s
  have hb' := hb hle
  have hn' := hn h0
  refine ⟨s1, _, h1, ⟨hl, by rw [ha]; exact hn', by rw [ha]; exact hb'⟩, by rw [ha], ?_⟩
  intro i hi
  simp only [List.mem_range] at hi
  omega

/-- Witness for C6: a frame with the button pressed on a scene with two
lights out of four. -/
theorem lightsWindow_keeps_count_in_range_witness :
    ∃ s1 out, LightsWindow 4 pressAdd sampleScene = some (s1, out) ∧
      s1.WellFormed 4 ∧
      out.ids = List.range s1.lights.activePointLights.toNat ∧
      ∀ i ∈ out.ids, i < 4 :=
  lightsWindow_keeps_count_in_range 4 pressAdd sampleScene (by decide)

/-- C7: after a frame of `LightsWindow`, if the count or some active light
(its position, colour or intensity) differs from before, `lightsEdited` is
true; and when no light is added (button not pressed, or the count is at the
cap) and no widget of a listed light reports an edit, the scene, and with it
`lightsEdited`, is as before. -/
theorem lightsWindow_marks_dirty (maxLights : Nat) (ui : LightsInput) (s : Scene)
    (h : s.WellFormed maxLights) :
    ∃ s1 out, LightsWindow maxLights ui s = some (s1, out) ∧
      ((s1.lights.activePointLights ≠ s.lights.activePointLights ∨
        ∃ i : Nat, (i : Int) < s1.lights.activePointLights ∧
          s1.lights.pointLights[i]? ≠ s.lights.pointLights[i]?) →
        s1.lightsEdited = true) ∧
      ((ui.addLight = false ∨ s.lights.activePointLights = (maxLights : Int)) →
        (∀ i : Nat, (i : Int) < s.lights.activePointLights → ui.edits i = LightEdit.untouched) →
        s1 = s) := by
  obtain ⟨hlen, h0, hle⟩ := h
  obtain ⟨s1, h1, ha, hl, hr, hm⟩ := LightsWindow_spec maxLights ui s hlen hle
  obtain ⟨_, _, hb, _, _⟩ := afterButton_spec maxLights ui s
  refine ⟨s1, _, h1, ?_, ?_⟩
  · intro hdiff
    rcases hr with hr | hr
    · rcases hb with hb | hb
      · exfalso
        rw [hr, hb] at hdiff
        rcases hdiff with hd | ⟨i, _, hd⟩
        · exact hd rfl
        · exact hd rfl
      · exact hm hb
    · exact hr
  · intro hno hu
    have hsame : (afterButton maxLights ui s).1 = s := by
      rcases hno with hno | hno
      · simp [afterButton, hno]
      · exact afterButton_at_limit maxLights ui s hno
    have h2 := LightsWindow_untouched maxLights ui s hlen hle (by
      intro j hj; rw [hsame] at hj; exact hu j hj)
    rw [h2] at h1
    simp only [Option.some.injEq, Prod.mk.injEq] at h1
    rw [← h1.1, hsame]

/-- Witness for C7: a frame that edits the colour of light 1. -/
theorem lightsWindow_marks_dirty_witness :
    ∃ s1 out, LightsWindow 4
        ⟨false, fun i => if i = 1 then ⟨none, some ⟨1, 1, 1⟩, none⟩ else LightEdit.untouched⟩
        sampleScene = some (s1, out) ∧ s1.lightsEdited = true := by
  obtain ⟨s1, out, h1, h2, _⟩ := lightsWindow_marks_dirty 4
    ⟨false, fun i => if i = 1 then ⟨none, some ⟨1, 1, 1⟩, none⟩ else LightEdit.untouched⟩
    sampleScene (by decide)
  refine ⟨s1, out, h1, h2 ?_⟩
  have hs : s1 = { sampleScene with
      lights := { sampleScene.lights with
        pointLights := sampleScene.lights.pointLights.set 1 ⟨⟨8, 9, 10⟩, ⟨1, 1, 1⟩, 14⟩ },
      lightsEdited := true } := by
    have : LightsWindow 4
        ⟨false, fun i => if i = 1 then ⟨none, some ⟨1, 1, 1⟩, none⟩ else LightEdit.untouched⟩
        sampleScene = some ({ sampleScene with
      lights := { sampleScene.lights with
        pointLights := sampleScene.lights.pointLights.set 1 ⟨⟨8, 9, 10⟩, ⟨1, 1, 1⟩, 14⟩ },
      lightsEdited := true }, ⟨[], [0, 1]⟩) := by decide
    rw [this] at h1
    simp only [Option.some.injEq, Prod.mk.injEq] at h1
    exact h1.1.symm
  subst hs
  right
  exact ⟨1, by decide, by decide⟩

/-! ## Lemmas on the material buffer -/

theorem ofLeBytes_leBytes4 (n : Nat) (h : n < 4294967296) : ofLeBytes (leBytes 4 n) = n := by
  simp only [leBytes, ofLeBytes]
  omega

theorem ofLeBytes_leBytes8 (n : Nat) (h : n < 18446744073709551616) :
    ofLeBytes (leBytes 8 n) = n := by
  simp only [leBytes, ofLeBytes]
  omega

theorem intOfBytes_intBytes (v : Int) (h : isInt32 v) : intOfBytes (intBytes v) = v := by
  obtain ⟨h1, h2⟩ := h
  unfold intOfBytes intBytes
  have hlt : (v % 4294967296).toNat < 4294967296 := by omega
  rw [ofLeBytes_leBytes4 _ hlt]
  split <;> omega

theorem vec3OfBytes_vec3Bytes (v : Vec3) (h : v.InRange) : vec3OfBytes (vec3Bytes v) = v := by
  obtain ⟨hx, hy, hz⟩ := h
  have ex := ofLeBytes_leBytes4 v.x hx
  have ey := ofLeBytes_leBytes4 v.y hy
  have ez := ofLeBytes_leBytes4 v.z hz
  simp only [leBytes] at ex ey ez
  cases v
  simp only [vec3OfBytes, vec3Bytes, readAt, leBytes, List.cons_append, List.nil_append,
    List.drop_succ_cons, List.drop_zero, List.take_succ_cons, List.take_zero]
  simp only [ex, ey, ez]

theorem doublesOfBytes_doublesBytes (ds : List Nat) (tail : List Nat)
    (h : ∀ d ∈ ds, d < 18446744073709551616) :
    doublesOfBytes ds.length (doublesBytes ds ++ tail) = ds := by
  induction ds with
  | nil => rfl
  | cons d ds ih =>
    have hd := ofLeBytes_leBytes8 d (h d (List.mem_cons_self d ds))
    simp only [leBytes] at hd
    simp only [List.length_cons, doublesOfBytes, doublesBytes, leBytes, List.cons_append,
      List.nil_append, List.take_succ_cons, List.take_zero, List.drop_succ_cons, List.drop_zero,
      hd]
    rw [ih (fun x hx => h x (List.mem_cons_of_mem d hx))]

theorem doublesBytes_length (ds : List Nat) : (doublesBytes ds).length = 8 * ds.length := by
  induction ds with
  | nil => rfl
  | cons d ds ih => simp [doublesBytes, leBytes, ih]; omega

theorem materialLayout_eq : materialLayout =
    [(.hasAlbedo, 0), (.hasNormal, 4), (.hasMetallicRoughness, 8), (.hasOcclusion, 12),
     (.hasEmissive, 16), (.oChannel, 20), (.rChannel, 24), (.mChannel, 28),
     (.useTextures, 32), (.Color, 36), (.Metallic, 48), (.Roughness, 52), (.stub, 56)] := by
  decide

theorem toBytes_eq (m : Material) :
    m.toBytes = intBytes m.hasAlbedo ++ (intBytes m.hasNormal ++
      (intBytes m.hasMetallicRoughness ++ (intBytes m.hasOcclusion ++
      (intBytes m.hasEmissive ++ (intBytes m.oChannel ++ (intBytes m.rChannel ++
      (intBytes m.mChannel ++ (intBytes m.useTextures ++ (vec3Bytes m.Color ++
      (leBytes 4 m.Metallic ++ (leBytes 4 m.Roughness ++ doublesBytes m.stub))))))))))) := by
  simp [Material.toBytes, Material.imageFrom, materialFields, Material.fieldBytes,
    MaterialField.type, CType.align, CType.size, alignUp]

theorem intBytes_length (v : Int) : (intBytes v).length = 4 := rfl

theorem leBytes_length (w n : Nat) : (leBytes w n).length = w := by
  induction w generalizing n with
  | zero => rfl
  | succ w ih => simp [leBytes, ih]

theorem vec3Bytes_length (v : Vec3) : (vec3Bytes v).length = 12 := by
  simp [vec3Bytes, leBytes_length]

theorem readAt_skip (a b : List Nat) (off len : Nat) (h : a.length ≤ off) :
    readAt (a ++ b) off len = readAt b (off - a.length) len := by
  unfold readAt
  rw [List.drop_append_eq_append_drop, List.drop_eq_nil_of_le h, List.nil_append]

theorem readAt_here (a b : List Nat) (len : Nat) (h : a.length = len) :
    readAt (a ++ b) 0 len = a := by
  unfold readAt
  rw [List.drop_zero, List.take_append_eq_append_take, ← h]
  simp

theorem readAt_all (a : List Nat) (len : Nat) (h : a.length = len) : readAt a 0 len = a := by
  have := readAt_here a [] len h
  simpa using this

theorem offsets_eq :
    offsetOf .hasAlbedo = 0 ∧ offsetOf .hasNormal = 4 ∧ offsetOf .hasMetallicRoughness = 8 ∧
    offsetOf .hasOcclusion = 12 ∧ offsetOf .hasEmissive = 16 ∧ offsetOf .oChannel = 20 ∧
    offsetOf .rChannel = 24 ∧ offsetOf .mChannel = 28 ∧ offsetOf .useTextures = 32 ∧
    offsetOf .Color = 36 ∧ offsetOf .Metallic = 48 ∧ offsetOf .Roughness = 52 ∧
    offsetOf .stub = 56 := by
  decide

theorem readFields_toBytes (m : Material) (hs : m.stub.length = 25) :
    readAt m.toBytes 0 4 = intBytes m.hasAlbedo ∧
    readAt m.toBytes 4 4 = intBytes m.hasNormal ∧
    readAt m.toBytes 8 4 = intBytes m.hasMetallicRoughness ∧
    readAt m.toBytes 12 4 = intBytes m.hasOcclusion ∧
    readAt m.toBytes 16 4 = intBytes m.hasEmissive ∧
    readAt m.toBytes 20 4 = intBytes m.oChannel ∧
    readAt m.toBytes 24 4 = intBytes m.rChannel ∧
    readAt m.toBytes 28 4 = intBytes m.mChannel ∧
    readAt m.toBytes 32 4 = intBytes m.useTextures ∧
    readAt m.toBytes 36 12 = vec3Bytes m.Color ∧
    readAt m.toBytes 48 4 = leBytes 4 m.Metallic ∧
    readAt m.toBytes 52 4 = leBytes 4 m.Roughness ∧
    readAt m.toBytes 56 200 = doublesBytes m.stub := by
  have hd : (doublesBytes m.stub).length = 200 := by rw [doublesBytes_length, hs]
  rw [toBytes_eq]
  refine ⟨?_, ?_, ?_, ?_, ?_, ?_, ?_, ?_, ?_, ?_, ?_, ?_, ?_⟩
  · exact readAt_here _ _ _ (by simp [intBytes_length, vec3Bytes_length, leBytes_length])
  · iterate 1
      rw [readAt_skip _ _ _ _ (by simp [intBytes_length, vec3Bytes_length, leBytes_length])]
      simp only [intBytes_length, vec3Bytes_length, leBytes_length, Nat.reduceSub]
    exact readAt_here _ _ _ (by simp [intBytes_length, vec3Bytes_length, leBytes_length])
  · iterate 2
      rw [readAt_skip _ _ _ _ (by simp [intBytes_length, vec3Bytes_length, leBytes_length])]
      simp only [intBytes_length, vec3Bytes_length, leBytes_length, Nat.reduceSub]
    exact readAt_here _ _ _ (by simp [intBytes_length, vec3Bytes_length, leBytes_length])
  · iterate 3
      rw [readAt_skip _ _ _ _ (by simp [intBytes_length, vec3Bytes_length, leBytes_length])]
      simp only [intBytes_length, vec3Bytes_length, leBytes_length, Nat.reduceSub]
    exact readAt_here _ _ _ (by simp [intBytes_length, vec3Bytes_length, leBytes_length])
  · iterate 4
      rw [readAt_skip _ _ _ _ (by simp [intBytes_length, vec3Bytes_length, leBytes_length])]
      simp only [intBytes_length, vec3Bytes_length, leBytes_length, Nat.reduceSub]
    exact readAt_here _ _ _ (by simp [intBytes_length, vec3Bytes_length, leBytes_length])
  · iterate 5
      rw [readAt_skip _ _ _ _ (by simp [intBytes_length, vec3Bytes_length, leBytes_length])]
      simp only [intBytes_length, vec3Bytes_length, leBytes_length, Nat.reduceSub]
    exact readAt_here _ _ _ (by simp [intBytes_length, vec3Bytes_length, leBytes_length])
  · iterate 6
      rw [readAt_skip _ _ _ _ (by simp [intBytes_length, vec3Bytes_length, leBytes_length])]
      simp only [intBytes_length, vec3Bytes_length, leBytes_length, Nat.reduceSub]
    exact readAt_here _ _ _ (by simp [intBytes_length, vec3Bytes_length, leBytes_length])
  · iterate 7
      rw [readAt_skip _ _ _ _ (by simp [intBytes_length, vec3Bytes_length, leBytes_length])]
      simp only [intBytes_length, vec3Bytes_length, leBytes_length, Nat.reduceSub]
    exact readAt_here _ _ _ (by simp [intBytes_length, vec3Bytes_length, leBytes_length])
  · iterate 8
      rw [readAt_skip _ _ _ _ (by simp [intBytes_length, vec3Bytes_length, leBytes_length])]
      simp only [intBytes_length, vec3Bytes_length, leBytes_length, Nat.reduceSub]
    exact readAt_here _ _ _ (by simp [intBytes_length, vec3Bytes_length, leBytes_length])
  · iterate 9
      rw [readAt_skip _ _ _ _ (by simp [intBytes_length, vec3Bytes_length, leBytes_length])]
      simp only [intBytes_length, vec3Bytes_length, leBytes_length, Nat.reduceSub]
    exact readAt_here _ _ _ (by simp [intBytes_length, vec3Bytes_length, leBytes_length])
  · iterate 10
      rw [readAt_skip _ _ _ _ (by simp [intBytes_length, vec3Bytes_length, leBytes_length])]
      simp only [intBytes_length, vec3Bytes_length, leBytes_length, Nat.reduceSub]
    exact readAt_here _ _ _ (by simp [intBytes_length, vec3Bytes_length, leBytes_length])
  · iterate 11
      rw [readAt_skip _ _ _ _ (by simp [intBytes_length, vec3Bytes_length, leBytes_length])]
      simp only [intBytes_length, vec3Bytes_length, leBytes_length, Nat.reduceSub]
    exact readAt_here _ _ _ (by simp [intBytes_length, vec3Bytes_length, leBytes_length])
  · iterate 12
      rw [readAt_skip _ _ _ _ (by simp [intBytes_length, vec3Bytes_length, leBytes_length])]
      simp only [intBytes_length, vec3Bytes_length, leBytes_length, Nat.reduceSub]
    exact readAt_all _ _ hd

theorem ofBytes_toBytes (m : Material) (h : m.InRange) : Material.ofBytes m.toBytes = m := by
  obtain ⟨h1, h2, h3, h4, h5, h6, h7, h8, h9, hc, hm, hr, hs, hd⟩ := h
  obtain ⟨r1, r2, r3, r4, r5, r6, r7, r8, r9, rc, rm, rr, rs⟩ := readFields_toBytes m hs
  obtain ⟨o1, o2, o3, o4, o5, o6, o7, o8, o9, oc, om, or, os⟩ := offsets_eq
  have hstub : doublesOfBytes 25 (doublesBytes m.stub) = m.stub := by
    have := doublesOfBytes_doublesBytes m.stub [] hd
    rw [hs, List.append_nil] at this
    exact this
  unfold Material.ofBytes readInt readFloat
  rw [o1, o2, o3, o4, o5, o6, o7, o8, o9, oc, om, or, os,
    r1, r2, r3, r4, r5, r6, r7, r8, r9, rc, rm, rr, rs,
    intOfBytes_intBytes _ h1, intOfBytes_intBytes _ h2, intOfBytes_intBytes _ h3,
    intOfBytes_intBytes _ h4, intOfBytes_intBytes _ h5, intOfBytes_intBytes _ h6,
    intOfBytes_intBytes _ h7, intOfBytes_intBytes _ h8, intOfBytes_intBytes _ h9,
    vec3OfBytes_vec3Bytes _ hc, ofLeBytes_leBytes4 _ hm, ofLeBytes_leBytes4 _ hr, hstub]

theorem toBytes_length (m : Material) (hs : m.stub.length = 25) : m.toBytes.length = 256 := by
  rw [toBytes_eq]
  simp [intBytes_length, vec3Bytes_length, leBytes_length, doublesBytes_length, hs]

/-! ## The claims on the material buffer -/

/-- C4: with 4-byte `int` and `float`, 12-byte `glm::vec3` and 8-byte aligned
`double`, `sizeof(Material)` is 256, a multiple of the 256-byte constant
buffer alignment; the struct has nine `int` members, the sizes of the members
add up to 256, every member starts where the previous one ends, and `stub`
starts at byte 56, right after `Roughness`. -/
theorem material_stride :
    sizeofMaterial = 256 ∧ sizeofMaterial % constantBufferAlignment = 0 ∧
    (materialFields.filter fun f => decide (f.type = CType.int)).length = 9 ∧
    (materialFields.map fun f => f.type.size).sum = 256 ∧
    offsetOf .stub = endOf .Roughness ∧ offsetOf .stub = 56 ∧ endOf .stub = 256 ∧
    offsetOf .hasAlbedo = 0 ∧
    (∀ p ∈ materialLayout.zip (materialLayout.drop 1), p.2.2 = p.1.2 + p.1.1.type.size) := by
  decide

/-- C5: for every material whose members hold values of their types, the
buffer `UpdateMaterialData` fills has the size of the struct and reading it
back member by member at the fixed offsets returns the material;
`useTextures` is read at byte 32, `Color` at bytes 36..47, `Metallic` at byte
48 and `Roughness` at byte 52, offsets that are constants of the layout. -/
theorem material_roundtrip (mesh : Mesh) (h : mesh.Material.InRange) :
    mesh.UpdateMaterialData.Material = mesh.Material ∧
    mesh.UpdateMaterialData.materialBuffer.length = sizeofMaterial ∧
    Material.ofBytes mesh.UpdateMaterialData.materialBuffer = mesh.Material ∧
    offsetOf .useTextures = 32 ∧ offsetOf .Color = 36 ∧ endOf .Color = 48 ∧
    offsetOf .Metallic = 48 ∧ offsetOf .Roughness = 52 ∧
    intOfBytes (readAt mesh.UpdateMaterialData.materialBuffer 32 4) =
      mesh.Material.useTextures ∧
    vec3OfBytes (readAt mesh.UpdateMaterialData.materialBuffer 36 12) = mesh.Material.Color ∧
    ofLeBytes (readAt mesh.UpdateMaterialData.materialBuffer 48 4) = mesh.Material.Metallic ∧
    ofLeBytes (readAt mesh.UpdateMaterialData.materialBuffer 52 4) =
      mesh.Material.Roughness := by
  have hround := ofBytes_toBytes mesh.Material h
  obtain ⟨_, _, _, _, _, _, _, _, h9, hc, hm, hr, hs, _⟩ := h
  obtain ⟨_, _, _, _, _, _, _, _, r9, rc, rm, rr, _⟩ := readFields_toBytes mesh.Material hs
  have hsize : sizeofMaterial = 256 := by decide
  refine ⟨rfl, ?_, hround, by decide, by decide, by decide, by decide, by decide, ?_, ?_, ?_, ?_⟩
  · rw [hsize]; exact toBytes_length mesh.Material hs
  · show intOfBytes (readAt mesh.Material.toBytes 32 4) = _
    rw [r9, intOfBytes_intBytes _ h9]
  · show vec3OfBytes (readAt mesh.Material.toBytes 36 12) = _
    rw [rc, vec3OfBytes_vec3Bytes _ hc]
  · show ofLeBytes (readAt mesh.Material.toBytes 48 4) = _
    rw [rm, ofLeBytes_leBytes4 _ hm]
  · show ofLeBytes (readAt mesh.Material.toBytes 52 4) = _
    rw [rr, ofLeBytes_leBytes4 _ hr]

/-- Witness for C5: the scenario of the spec, `useTextures = 0`, colour
(1, 0, 0), metallic 0.5. -/
theorem material_roundtrip_witness :
    intOfBytes (readAt sampleMesh.UpdateMaterialData.materialBuffer 32 4) = 0 ∧
    vec3OfBytes (readAt sampleMesh.UpdateMaterialData.materialBuffer 36 12) =
      ⟨0x3F800000, 0, 0⟩ ∧
    ofLeBytes (readAt sampleMesh.UpdateMaterialData.materialBuffer 48 4) = 0x3F000000 := by
  have h := material_roundtrip sampleMesh (by decide)
  exact ⟨h.2.2.2.2.2.2.2.2.1, h.2.2.2.2.2.2.2.2.2.1, h.2.2.2.2.2.2.2.2.2.2.1⟩

/-! ## The claims on the skydome stage -/

/-- The calls `RecordStage` records for a stage whose scene is `scene`, in
the order of the source. -/
theorem RecordStage_scene (ndebug : Bool) (glm : Glm) (skydomeData : Nat)
    (stage : SkydomeStage) (commandList : List Cmd) (scene : Scene)
    (h : stage.scene = some scene) :
    RecordStage ndebug glm skydomeData stage commandList =
      .ok ({ stage with
              skydomeMatrix := glm.mul scene.camera.projectionMatrix
                (glm.lookAt ⟨0, 0, 0⟩ scene.camera.forwardVector scene.camera.upwardVector) },
        commandList ++
        [ Cmd.TransitionResource stage.window.currentScreenBuffer
            D3D12_RESOURCE_STATE_PRESENT D3D12_RESOURCE_STATE_RENDER_TARGET,
          Cmd.BindAndClearRenderTarget stage.window.currentScreenRTV stage.window.depthDSV,
          Cmd.SetGraphicsRootSignature stage.rootSignature,
          Cmd.SetPipelineState stage.pipeline,
          Cmd.SetGraphicsRootDescriptorTable 0 skydomeData,
          Cmd.SetGraphicsRoot32BitConstants 1 3
            [scene.camera.forwardVector.x, scene.camera.forwardVector.y,
             scene.camera.forwardVector.z] 0,
          Cmd.SetGraphicsRoot32BitConstants 2 16
            (glm.mul scene.camera.projectionMatrix
              (glm.lookAt ⟨0, 0, 0⟩ scene.camera.forwardVector scene.camera.upwardVector)) 0,
          Cmd.IASetVertexBuffers 0 1 stage.skydomeMesh.vertexBufferView,
          Cmd.IASetIndexBuffer stage.skydomeMesh.indexBufferView,
          Cmd.DrawIndexedInstanced stage.skydomeMesh.indicesCount 1 0 0 0 ]) := by
  unfold RecordStage
  rw [h]

/-- C2, as the claim states it, fails: in a build with assertions on, a
stage whose scene was never set does not return from `RecordStage`; the
`assert(false && ...)` stops the process. -/
theorem null_scene_assert_aborts :
    sampleStage.scene = none ∧
    RecordStage false sampleGlm 5 sampleStage [] = .error sceneNotSet ∧
    RecordStage false sampleGlm 5 sampleStage [] ≠ .ok (sampleStage, []) := by
  refine ⟨rfl, rfl, ?_⟩
  intro h
  cases h

/-- C2, amended: for a stage whose scene is null, `RecordStage` built with
`NDEBUG` returns with the command list and the stage (so `skydomeMatrix`) as
they were; built with assertions on, it stops at the assert, before any call
is recorded. -/
theorem recordStage_null_scene (glm : Glm) (skydomeData : Nat) (stage : SkydomeStage)
    (commandList : List Cmd) (h : stage.scene = none) :
    RecordStage true glm skydomeData stage commandList = .ok (stage, commandList) ∧
    RecordStage false glm skydomeData stage commandList = .error sceneNotSet := by
  unfold RecordStage
  rw [h]
  exact ⟨rfl, rfl⟩

/-- Witness for C2 amended: the sample stage, whose scene is null. -/
theorem recordStage_null_scene_witness :
    RecordStage true sampleGlm 5 sampleStage [] = .ok (sampleStage, []) ∧
    RecordStage false sampleGlm 5 sampleStage [] = .error sceneNotSet :=
  recordStage_null_scene sampleGlm 5 sampleStage [] rfl

/-- C8: for a stage with a scene set, `RecordStage` returns and appends to
the command list exactly these ten calls in this order: the transition of the
screen buffer, bind-and-clear of the render target, `SetGraphicsRootSignature`,
`SetPipelineState`, the descriptor table at index 0, three constants (the
forward vector) at index 1, sixteen constants (the matrix) at index 2, the
vertex buffer bind, the index buffer bind, and one `DrawIndexedInstanced`
with the index count of the skydome mesh and instance count 1. -/
theorem recordStage_order (ndebug : Bool) (glm : Glm) (skydomeData : Nat)
    (stage : SkydomeStage) (commandList : List Cmd) (scene : Scene)
    (h : stage.scene = some scene) :
    ∃ stage1 matrix,
      RecordStage ndebug glm skydomeData stage commandList =
        .ok (stage1, commandList ++
          [ Cmd.TransitionResource stage.window.currentScreenBuffer
              D3D12_RESOURCE_STATE_PRESENT D3D12_RESOURCE_STATE_RENDER_TARGET,
            Cmd.BindAndClearRenderTarget stage.window.currentScreenRTV stage.window.depthDSV,
            Cmd.SetGraphicsRootSignature stage.rootSignature,
            Cmd.SetPipelineState stage.pipeline,
            Cmd.SetGraphicsRootDescriptorTable 0 skydomeData,
            Cmd.SetGraphicsRoot32BitConstants 1 3
              [scene.camera.forwardVector.x, scene.camera.forwardVector.y,
               scene.camera.forwardVector.z] 0,
            Cmd.SetGraphicsRoot32BitConstants 2 16 matrix 0,
            Cmd.IASetVertexBuffers 0 1 stage.skydomeMesh.vertexBufferView,
            Cmd.IASetIndexBuffer stage.skydomeMesh.indexBufferView,
            Cmd.DrawIndexedInstanced stage.skydomeMesh.indicesCount 1 0 0 0 ]) ∧
      stage1.skydomeMatrix = matrix ∧
      matrix = glm.mul scene.camera.projectionMatrix
        (glm.lookAt ⟨0, 0, 0⟩ scene.camera.forwardVector scene.camera.upwardVector) :=
  ⟨_, _, RecordStage_scene ndebug glm skydomeData stage commandList scene h, rfl, rfl⟩

/-- Witness for C8: the sample stage with the sample scene set. -/
theorem recordStage_order_witness :
    ∃ stage1 matrix,
      RecordStage false sampleGlm 5 { sampleStage with scene := some sampleScene } [] =
        .ok (stage1, [] ++
          [ Cmd.TransitionResource 10 D3D12_RESOURCE_STATE_PRESENT
              D3D12_RESOURCE_STATE_RENDER_TARGET,
            Cmd.BindAndClearRenderTarget 11 12,
            Cmd.SetGraphicsRootSignature 20,
            Cmd.SetPipelineState 21,
            Cmd.SetGraphicsRootDescriptorTable 0 5,
            Cmd.SetGraphicsRoot32BitConstants 1 3 [0, 0, 1] 0,
            Cmd.SetGraphicsRoot32BitConstants 2 16 matrix 0,
            Cmd.IASetVertexBuffers 0 1 100,
            Cmd.IASetIndexBuffer 101,
            Cmd.DrawIndexedInstanced 36 1 0 0 0 ]) ∧
      stage1.skydomeMatrix = matrix ∧
      matrix = [1, 0, 0, 0, 0, 0, 1, 0, 1, 0] :=
  recordStage_order false sampleGlm 5 { sampleStage with scene := some sampleScene } []
    sampleScene rfl

/-- C9: for a stage with a scene set, the calls `RecordStage` records hold
exactly one resource-state transition, of the current screen buffer from
PRESENT to RENDER_TARGET; none of them is a transition to PRESENT; and a
screen buffer that was in PRESENT before is in RENDER_TARGET after them. -/
theorem recordStage_transitions (ndebug : Bool) (glm : Glm) (skydomeData : Nat)
    (stage : SkydomeStage) (commandList : List Cmd) (scene : Scene)
    (h : stage.scene = some scene) :
    ∃ stage1 recorded,
      RecordStage ndebug glm skydomeData stage commandList =
        .ok (stage1, commandList ++ recorded) ∧
      transitions recorded =
        [(stage.window.currentScreenBuffer, D3D12_RESOURCE_STATE_PRESENT,
          D3D12_RESOURCE_STATE_RENDER_TARGET)] ∧
      (∀ t ∈ transitions recorded, t.2.2 ≠ D3D12_RESOURCE_STATE_PRESENT) ∧
      stateAfter stage.window.currentScreenBuffer recorded D3D12_RESOURCE_STATE_PRESENT =
        some D3D12_RESOURCE_STATE_RENDER_TARGET := by
  refine ⟨_, _, RecordStage_scene ndebug glm skydomeData stage commandList scene h, rfl, ?_, ?_⟩
  · intro t ht
    simp only [transitions, List.mem_singleton] at ht
    rw [ht]
    show D3D12_RESOURCE_STATE_RENDER_TARGET ≠ D3D12_RESOURCE_STATE_PRESENT
    decide
  · simp [stateAfter]

/-- Witness for C9: the sample stage with the sample scene set. -/
theorem recordStage_transitions_witness :
    ∃ stage1 recorded,
      RecordStage true sampleGlm 5 { sampleStage with scene := some sampleScene } [] =
        .ok (stage1, [] ++ recorded) ∧
      transitions recorded = [(10, D3D12_RESOURCE_STATE_PRESENT,
        D3D12_RESOURCE_STATE_RENDER_TARGET)] ∧
      (∀ t ∈ transitions recorded, t.2.2 ≠ D3D12_RESOURCE_STATE_PRESENT) ∧
      stateAfter 10 recorded D3D12_RESOURCE_STATE_PRESENT =
        some D3D12_RESOURCE_STATE_RENDER_TARGET :=
  recordStage_transitions true sampleGlm 5 { sampleStage with scene := some sampleScene } []
    sampleScene rfl

/-! ## The details window -/

theorem copyChannels_first (c f x : Mesh)
    (h : ∀ y, copyChannels f y = copyChannels c y) (m : Mesh) :
    copyChannels (copyChannels f m) x = copyChannels c x := by
  rw [← h x]
  rfl

theorem syncMeshes_spec (c : Mesh) (k : Nat) :
    ∀ (j : Nat) (ms : List Mesh) (calls : List Nat), j + k ≤ ms.length →
      (∃ f, ms[0]? = some f ∧ ∀ y, copyChannels f y = copyChannels c y) →
      ∃ ms1, syncMeshes k j ms calls = some (ms1, calls ++ List.range' j k) ∧
        ms1.length = ms.length ∧
        ∀ i, ms1[i]? =
          if j ≤ i ∧ i < j + k then (ms[i]?).map (copyChannels c) else ms[i]? := by
  induction k with
  | zero =>
    intro j ms calls _ _
    refine ⟨ms, by simp [syncMeshes], rfl, ?_⟩
    intro i
    have : ¬ (j ≤ i ∧ i < j + 0) := by omega
    rw [if_neg this]
  | succ k ih =>
    intro j ms calls hj hf
    obtain ⟨f, hf0, hfc⟩ := hf
    have hjl : j < ms.length := by omega
    have hgj : ms[j]? = some ms[j] := List.getElem?_eq_getElem hjl
    have hstep : syncMesh j ms = some (ms.set j (copyChannels f ms[j])) := by
      unfold syncMesh
      rw [hf0, hgj]
    have hfirst : ∃ f1, (ms.set j (copyChannels f ms[j]))[0]? = some f1 ∧
        ∀ y, copyChannels f1 y = copyChannels c y := by
      by_cases hj0 : j = 0
      · subst hj0
        refine ⟨copyChannels f ms[0], by simp [List.getElem?_set, hjl], ?_⟩
        intro y
        exact copyChannels_first c f y hfc _
      · refine ⟨f, ?_, hfc⟩
        rw [List.getElem?_set_ne hj0]
        exact hf0
    obtain ⟨ms1, h1, hl1, hp1⟩ := ih (j + 1) (ms.set j (copyChannels f ms[j])) (calls ++ [j])
      (by simp; omega) hfirst
    refine ⟨ms1, ?_, by rw [hl1]; simp, ?_⟩
    · simp only [syncMeshes, hstep, h1]
      simp [List.range'_succ]
    · intro i
      rw [hp1 i]
      by_cases hij : i = j
      · subst hij
        have h1 : ¬ (i + 1 ≤ i ∧ i < i + 1 + k) := by omega
        have h2 : i ≤ i ∧ i < i + (k + 1) := by omega
        rw [if_neg h1, if_pos h2, hgj]
        simp [List.getElem?_set, hjl, hfc]
      · have hne : j ≠ i := fun h => hij h.symm
        rw [List.getElem?_set_ne hne]
        by_cases hin : j + 1 ≤ i ∧ i < j + 1 + k
        · have h2 : j ≤ i ∧ i < j + (k + 1) := by omega
          rw [if_pos hin, if_pos h2]
        · have h2 : ¬ (j ≤ i ∧ i < j + (k + 1)) := by omega
          rw [if_neg hin, if_neg h2]

theorem editMaterial_updated (ui : DetailsInput) (material : Material) :
    (editMaterial ui material).2 = ui.materialEdited material := by
  obtain ⟨_, _, _, click, color, metallic, roughness, o, r, mc⟩ := ui
  unfold editMaterial DetailsInput.materialEdited
  simp only
  generalize shownUseTextures _ material = shown
  cases click <;> cases shown <;> cases color <;> cases metallic <;> cases roughness <;>
    cases o <;> cases r <;> cases mc <;> rfl

theorem editMaterial_unchanged (ui : DetailsInput) (material : Material)
    (h : ui.materialEdited material = false) : (editMaterial ui material).1 = material := by
  obtain ⟨_, _, _, click, color, metallic, roughness, o, r, mc⟩ := ui
  unfold DetailsInput.materialEdited at h
  unfold editMaterial
  simp only at h ⊢
  generalize shownUseTextures _ material = shown at h ⊢
  cases click <;> cases shown <;> cases color <;> cases metallic <;> cases roughness <;>
    cases o <;> cases r <;> cases mc <;> first | rfl | (simp at h)

theorem copyChannels_self (m : Mesh) : (copyChannels m m).Material = m.Material := by
  obtain ⟨mat, _, _, _, _, _⟩ := m
  cases mat
  rfl

theorem count_range_eq_one (n i : Nat) (h : i < n) : (List.range n).count i = 1 :=
  List.count_eq_one_of_mem (List.nodup_range n) (List.mem_range.mpr h)

/-- C10: for a selected model with at least one mesh, `DetailsWindow`
returns.  If a material widget shown in the frame reported an edit,
`UpdateMaterialData` was called on the meshes `0, 1, .., n-1`, each exactly
once; afterwards mesh 0 holds the edited material, every mesh has the
`oChannel`, `rChannel` and `mChannel` of mesh 0, and every mesh's constant
buffer holds its material.  If none reported an edit, `UpdateMaterialData`
was called on no mesh and the meshes are as before. -/
theorem detailsWindow_updates_materials (ui : DetailsInput) (model : Model) (mesh0 : Mesh)
    (h0 : model.meshes[0]? = some mesh0) :
    ∃ model1 calls, DetailsWindow ui (some model) = some (some model1, calls) ∧
      model1.meshes.length = model.meshes.length ∧
      (ui.materialEdited mesh0.Material = true →
        calls = List.range model.meshes.length ∧
        (∀ i, i < model.meshes.length → calls.count i = 1) ∧
        ∃ first, model1.meshes[0]? = some first ∧
          first.Material = (editMaterial ui mesh0.Material).1 ∧
          ∀ mesh ∈ model1.meshes,
            mesh.Material.oChannel = first.Material.oChannel ∧
            mesh.Material.rChannel = first.Material.rChannel ∧
            mesh.Material.mChannel = first.Material.mChannel ∧
            mesh.materialBuffer = mesh.Material.toBytes) ∧
      (ui.materialEdited mesh0.Material = false →
        calls = [] ∧ model1.meshes = model.meshes) := by
  have hpos : 0 < model.meshes.length := by
    rcases Nat.lt_or_ge 0 model.meshes.length with h | h
    · exact h
    · rw [List.getElem?_eq_none h] at h0; cases h0
  rw [← editMaterial_updated]
  cases hed : (editMaterial ui mesh0.Material).2 with
  | false =>
    have hsame : (editMaterial ui mesh0.Material).1 = mesh0.Material :=
      editMaterial_unchanged ui mesh0.Material (by rw [← editMaterial_updated]; exact hed)
    have hset : model.meshes.set 0 { mesh0 with Material := (editMaterial ui mesh0.Material).1 } =
        model.meshes := by
      rw [hsame]
      exact set_eq_self_of_getElem? _ _ _ h0
    refine ⟨{ model with Transform := editTransform ui model.Transform }, [], ?_, rfl,
      fun h => (by cases h), fun _ => ⟨rfl, rfl⟩⟩
    unfold DetailsWindow
    simp only [h0, hed, hset, Bool.false_eq_true, if_false]
  | true =>
    obtain ⟨ms1, h1, hl1, hp1⟩ := syncMeshes_spec
      { mesh0 with Material := (editMaterial ui mesh0.Material).1 }
      (model.meshes.set 0 { mesh0 with Material := (editMaterial ui mesh0.Material).1 }).length 0
      (model.meshes.set 0 { mesh0 with Material := (editMaterial ui mesh0.Material).1 }) []
      (by omega)
      ⟨_, by simp [List.getElem?_set, hpos], fun _ => rfl⟩
    have hlen : ms1.length = model.meshes.length := by rw [hl1]; simp
    have hpoint : ∀ i mesh, ms1[i]? = some mesh → ∃ x,
        mesh = copyChannels { mesh0 with Material := (editMaterial ui mesh0.Material).1 } x ∧
        (i = 0 → x = { mesh0 with Material := (editMaterial ui mesh0.Material).1 }) := by
      intro i mesh hm
      have hi : i < ms1.length := by
        rcases Nat.lt_or_ge i ms1.length with h | h
        · exact h
        · rw [List.getElem?_eq_none h] at hm; cases hm
      rw [hp1 i, if_pos (by rw [hl1] at hi; omega)] at hm
      simp only [Option.map_eq_some'] at hm
      obtain ⟨x, hx, hxm⟩ := hm
      refine ⟨x, hxm.symm, ?_⟩
      intro hi0
      subst hi0
      simp [List.getElem?_set, hpos] at hx
      exact hx.symm
    have hfirst : ms1[0]? = some ms1[0] := List.getElem?_eq_getElem (by omega)
    obtain ⟨x0, hx0, hx0'⟩ := hpoint 0 _ hfirst
    have hfm : (ms1[0]).Material = (editMaterial ui mesh0.Material).1 := by
      rw [hx0, hx0' rfl, copyChannels_self]
    refine ⟨{ model with Transform := editTransform ui model.Transform, meshes := ms1 },
      List.range model.meshes.length, ?_, hlen, fun _ => ⟨rfl, ?_, ms1[0], hfirst, hfm, ?_⟩,
      fun h => (by cases h)⟩
    · unfold DetailsWindow
      simp only [h0, hed, if_true, h1]
      simp [List.range_eq_range']
    · intro i hi
      exact count_range_eq_one _ i hi
    · intro mesh hmem
      obtain ⟨i, hi⟩ := List.mem_iff_getElem?.mp hmem
      obtain ⟨x, hx, _⟩ := hpoint i mesh hi
      rw [hfm, hx]
      exact ⟨rfl, rfl, rfl, rfl⟩

/-- Witness for C10: the metallic slider of a model with two meshes moves. -/
theorem detailsWindow_updates_materials_witness :
    ∃ model1 calls, DetailsWindow sampleDetailsInput (some sampleModel) =
        some (some model1, calls) ∧ calls = [0, 1] := by
  obtain ⟨model1, calls, h1, _, h3, _⟩ :=
    detailsWindow_updates_materials sampleDetailsInput sampleModel sampleMesh rfl
  exact ⟨model1, calls, h1, (h3 (by decide)).1⟩

/-! ## Root arguments against the root signature -/

/-- C11: for a stage with a scene set, the root arguments `RecordStage` binds
are a descriptor table at index 0, three constants at index 1 and sixteen at
index 2, both from destination offset 0.  The root signature of
`CreatePipeline` declares three parameters: a descriptor table, three
constants and sixteen constants.  So every bound index is below the declared
count, every argument is of the kind its parameter declares, and the number
of constants written equals the number declared: no binding exceeds or
mismatches its slot. -/
theorem recordStage_root_arguments (ndebug : Bool) (glm : Glm) (skydomeData : Nat)
    (stage : SkydomeStage) (commandList : List Cmd) (scene : Scene)
    (h : stage.scene = some scene) :
    ∃ stage1 recorded,
      RecordStage ndebug glm skydomeData stage commandList =
        .ok (stage1, commandList ++ recorded) ∧
      rootArguments recorded =
        [RootArgument.descriptorTable 0, RootArgument.constants 1 3 0,
         RootArgument.constants 2 16 0] ∧
      CreatePipeline.1.parameterCount = 3 ∧
      CreatePipeline.2.RootSignature = CreatePipeline.1 ∧
      (∃ n ranges v, CreatePipeline.1.parameters[0]? =
        some (RootParameter.descriptorTable n ranges v)) ∧
      (∃ r sp v, CreatePipeline.1.parameters[1]? = some (RootParameter.constants 3 r sp v)) ∧
      (∃ r sp v, CreatePipeline.1.parameters[2]? = some (RootParameter.constants 16 r sp v)) ∧
      (∀ a ∈ rootArguments recorded,
        a.index < CreatePipeline.1.parameterCount ∧
        a.fits CreatePipeline.1 = true ∧ a.matchesSlot CreatePipeline.1 = true) := by
  refine ⟨_, _, RecordStage_scene ndebug glm skydomeData stage commandList scene h, rfl, rfl,
    rfl, ⟨_, _, _, rfl⟩, ⟨_, _, _, rfl⟩, ⟨_, _, _, rfl⟩, ?_⟩
  intro a ha
  simp only [rootArguments, List.mem_cons, List.mem_singleton, List.not_mem_nil, or_false] at ha
  rcases ha with ha | ha | ha <;> subst ha <;> decide

/-- Witness for C11: the sample stage with the sample scene set. -/
theorem recordStage_root_arguments_witness :
    ∃ stage1 recorded,
      RecordStage false sampleGlm 5 { sampleStage with scene := some sampleScene } [] =
        .ok (stage1, [] ++ recorded) ∧
      rootArguments recorded =
        [RootArgument.descriptorTable 0, RootArgument.constants 1 3 0,
         RootArgument.constants 2 16 0] ∧
      (∀ a ∈ rootArguments recorded,
        a.index < CreatePipeline.1.parameterCount ∧
        a.fits CreatePipeline.1 = true ∧ a.matchesSlot CreatePipeline.1 = true) := by
  obtain ⟨stage1, recorded, h1, h2, _, _, _, _, _, h8⟩ :=
    recordStage_root_arguments false sampleGlm 5
      { sampleStage with scene := some sampleScene } [] sampleScene rfl
  exact ⟨stage1, recorded, h1, h2, h8⟩

end Void
